import Mathlib

/-!
Shallow embedding of the daniel-daily collection pipeline
(`src/collection/coordinator.py`, `src/storage/markdown_store.py`,
`src/storage/deduplicator.py`, `src/state/source_state.py`,
`src/collection/fetchers/rss_fetcher.py`), together with theorems settling
the frozen specification claims about it.

Modelling conventions, used throughout:
* Python `datetime` values are modelled as `Int` seconds (naive timestamps);
  `timedelta(days=d)` is `d * 86400` seconds.
* Python `dict[str, V]` objects are modelled as association lists
  `List (String × V)` with `mapGet` (lookup, `None` on a missing key) and
  `mapSet` (in-place replace of an existing key, else append) mirroring
  `d.get(k)` and `d[k] = v`.
* Python `set[str]` is modelled as a duplicate-free `List String` with
  `insertId` mirroring `set.add`.
* Fetch durations are modelled in whole centiseconds (`Int`), so Python's
  `round(duration, 2)` is the identity and floating point is avoided.
* Network and clock effects are inputs to the embedded functions: the fetch
  outcome, the current time and its rendered timestamp string arrive as
  explicit arguments instead of being read from the environment.
-/

namespace DanielDaily

/-- A naive datetime, counted in seconds. -/
abbrev DateTime := Int

/-- Open-ended metadata dictionary (`dict[str, Any]`); in this system its
values are lists of strings (the `tags` list built by the RSS fetcher). -/
abbrev Metadata := List (String × List String)

/-- Python dict lookup `d.get(k)`: first entry with the given key. -/
def mapGet {α : Type} : List (String × α) → String → Option α
  | [], _ => none
  | (k', v) :: rest, k => if k' = k then some v else mapGet rest k

/-- Python dict assignment `d[k] = v`: replace the first entry with the given
key, keeping its position, else append a new entry. -/
def mapSet {α : Type} : List (String × α) → String → α → List (String × α)
  | [], k, v => [(k, v)]
  | (k', v') :: rest, k, v =>
      if k' = k then (k, v) :: rest else (k', v') :: mapSet rest k v

@[simp] theorem mapGet_nil {α : Type} (k : String) :
    mapGet ([] : List (String × α)) k = none := rfl

@[simp] theorem mapGet_cons {α : Type} (k' : String) (v : α) (rest : List (String × α))
    (k : String) :
    mapGet ((k', v) :: rest) k = if k' = k then some v else mapGet rest k := rfl

theorem mapGet_mapSet_self {α : Type} (m : List (String × α)) (k : String) (v : α) :
    mapGet (mapSet m k v) k = some v := by
  induction m with
  | nil => simp [mapSet]
  | cons hd tl ih =>
    obtain ⟨k', v'⟩ := hd
    by_cases h : k' = k
    · simp [mapSet, h]
    · simp [mapSet, h, ih]

theorem mapGet_mapSet_ne {α : Type} (m : List (String × α)) (k k' : String) (v : α)
    (h : k' ≠ k) : mapGet (mapSet m k v) k' = mapGet m k' := by
  induction m with
  | nil => simp [mapSet, mapGet, Ne.symm h]
  | cons hd tl ih =>
    obtain ⟨k₀, v₀⟩ := hd
    by_cases h₀ : k₀ = k
    · subst h₀
      simp [mapSet, mapGet, Ne.symm h]
    · simp [mapSet, mapGet, h₀, ih]

/- ## Source descriptors (`src/curation/types.py`) -/

/-- The `SourceType` enumeration; it has exactly one member, `RSS = "rss"`. -/
inductive SourceType
  | rss
deriving DecidableEq, Repr

/-- The string value of a `SourceType` member. -/
def SourceType.value : SourceType → String
  | .rss => "rss"

/-- One configured source (`Source` pydantic model). -/
structure Source where
  id : String
  name : String
  type : SourceType
  url : String
  category : String
  enabled : Bool := true
deriving DecidableEq, Repr

/- ## Source state tracker (`src/state/source_state.py`) -/

/-- One entry of a source's bounded fetch history (`FetchHistoryEntry`). -/
structure FetchHistoryEntry where
  timestamp : String
  success : Bool
  items_fetched : Nat := 0
  error : Option String := none
  duration_seconds : Int := 0
deriving DecidableEq, Repr

/-- The per-source mutable health record (`SourceState`). Item counts are
natural numbers (they count fetched/stored items). -/
structure SourceState where
  source_id : String
  last_fetch_attempt : Option String := none
  last_successful_fetch : Option String := none
  last_fetch_success : Bool := false
  last_error : Option String := none
  last_error_type : Option String := none
  items_fetched_last_run : Nat := 0
  total_items_fetched : Nat := 0
  consecutive_failures : Nat := 0
  fetch_history : List FetchHistoryEntry := []
deriving DecidableEq, Repr

/-- The state manager's in-memory map `self._states`. -/
abbrev StateMap := List (String × SourceState)

namespace SourceStateManager

/-- The fixed history cap `MAX_HISTORY_ENTRIES = 10`. -/
def MAX_HISTORY_ENTRIES : Nat := 10

/-- Lookup of one source's state (`get_state`). -/
def get_state (m : StateMap) (source_id : String) : Option SourceState :=
  mapGet m source_id

/-- Embedding of `record_success`. The wall-clock timestamp string
(`datetime.utcnow().isoformat() + "Z"`) arrives as the `nowIso` argument; the
write-through `_save()` call persists the returned map and is otherwise
effect-free. `self._states.get(source_id) or SourceState(...)` is `getD`
because a dataclass instance is always truthy. -/
def record_success (m : StateMap) (source_id : String) (items_fetched : Nat)
    (duration : Int) (nowIso : String) : StateMap :=
  let state := (mapGet m source_id).getD { source_id := source_id }
  let state := { state with
    last_fetch_attempt := some nowIso
    last_successful_fetch := some nowIso
    last_fetch_success := true
    last_error := none
    last_error_type := none
    items_fetched_last_run := items_fetched
    total_items_fetched := state.total_items_fetched + items_fetched
    consecutive_failures := 0 }
  let entry : FetchHistoryEntry :=
    { timestamp := nowIso, success := true, items_fetched := items_fetched
      duration_seconds := duration }
  let state := { state with
    fetch_history := (entry :: state.fetch_history).take MAX_HISTORY_ENTRIES }
  mapSet m source_id state

/-- Embedding of `record_failure`; `err` is `str(error)` and `errType` is
`type(error).__name__`. -/
def record_failure (m : StateMap) (source_id : String) (err errType : String)
    (duration : Int) (nowIso : String) : StateMap :=
  let state := (mapGet m source_id).getD { source_id := source_id }
  let state := { state with
    last_fetch_attempt := some nowIso
    last_fetch_success := false
    last_error := some err
    last_error_type := some errType
    items_fetched_last_run := 0
    consecutive_failures := state.consecutive_failures + 1 }
  let entry : FetchHistoryEntry :=
    { timestamp := nowIso, success := false, error := some err
      duration_seconds := duration }
  let state := { state with
    fetch_history := (entry :: state.fetch_history).take MAX_HISTORY_ENTRIES }
  mapSet m source_id state

/-- Sources whose state needs attention (`get_sources_needing_attention`). -/
def get_sources_needing_attention (m : StateMap) : List SourceState :=
  (m.map Prod.snd).filter fun s => s.consecutive_failures > 0 || !s.last_fetch_success

end SourceStateManager

/-- One recorded fetch attempt, as seen by the state manager: either a
`record_success` call or a `record_failure` call with its arguments. -/
inductive FetchEvent
  | success (items : Nat) (duration : Int) (nowIso : String)
  | failure (err errType : String) (duration : Int) (nowIso : String)
deriving DecidableEq, Repr

/-- Apply one recorded attempt for source `sid` to the state map. -/
def applyEvent (sid : String) (m : StateMap) : FetchEvent → StateMap
  | .success items dur iso => SourceStateManager.record_success m sid items dur iso
  | .failure err ty dur iso => SourceStateManager.record_failure m sid err ty dur iso

/-- Apply a chronological sequence of recorded attempts for source `sid`. -/
def runEvents (sid : String) (m : StateMap) (evs : List FetchEvent) : StateMap :=
  evs.foldl (applyEvent sid) m

/-- The history entry that recording one attempt prepends (matching the
`FetchHistoryEntry(...)` constructions in `record_success`/`record_failure`). -/
def entryOfEvent : FetchEvent → FetchHistoryEntry
  | .success items dur iso =>
      { timestamp := iso, success := true, items_fetched := items
        duration_seconds := dur }
  | .failure err _ dur iso =>
      { timestamp := iso, success := false, error := some err
        duration_seconds := dur }

/-- The state recorded for `sid` in `m`, defaulting to the lazily created
fresh state (`SourceState(source_id=sid)`). -/
def stateOf (m : StateMap) (sid : String) : SourceState :=
  (SourceStateManager.get_state m sid).getD { source_id := sid }

/- ## Content store (`src/storage/markdown_store.py`)

A stored markdown file is `---\n`, a YAML front-matter block, `---\n\n`, then
the raw body. The YAML layer (`yaml.dump` of a flat dictionary whose values
are strings, ISO-formatted datetimes, or the metadata sub-dictionary, and the
inverse `yaml.safe_load`) is modelled structurally: the front matter is kept
as an association list of keys to tagged values `FMVal`, one entry per
emitted `key: value` line. `datetime.isoformat()` followed by
`datetime.fromisoformat(...)` is the identity on valid datetimes and the
latter raises on any non-datetime string; this is modelled by the `vtime`
tag: `FMVal.asTime?` succeeds exactly on `vtime` values. -/

/-- Python `str.strip(ch)`: drop the character from both ends. -/
def stripChar (ch : Char) (l : List Char) : List Char :=
  ((l.dropWhile (· = ch)).reverse.dropWhile (· = ch)).reverse

/-- Python `str.strip(chars)`-style both-ends drop for a character class. -/
def stripEnds (p : Char → Bool) (s : String) : String :=
  String.mk (((s.toList.dropWhile p).reverse.dropWhile p).reverse)

/-- Python `str.strip()`: drop whitespace from both ends. -/
def pyStrip (s : String) : String := stripEnds Char.isWhitespace s

/-- Whether a character list contains three consecutive dashes. -/
def hasTriple : List Char → Bool
  | '-' :: '-' :: '-' :: _ => true
  | _ :: cs => hasTriple cs
  | [] => false

/-- A header line is clean when it contains no `---` (the delimiter the
parser's `text.find("---", 3)` scan looks for; `---` never spans a line
boundary, so a per-line check is exact). -/
def lineClean (s : String) : Bool := !hasTriple s.toList

/-- Split a string at its first `---` occurrence: the text before it and the
text after it. -/
def splitTripleAux (acc : List Char) : List Char → List Char × List Char
  | '-' :: '-' :: '-' :: rest => (acc.reverse, rest)
  | c :: cs => splitTripleAux (c :: acc) cs
  | [] => (acc.reverse, [])

/-- Split a string at its first `---` occurrence. -/
def splitTriple (s : String) : String × String :=
  (String.mk (splitTripleAux [] s.toList).1, String.mk (splitTripleAux [] s.toList).2)

/-- One front-matter value: a string scalar, an ISO-formatted datetime, or
the nested metadata mapping. -/
inductive FMVal
  | vstr (s : String)
  | vtime (t : DateTime)
  | vmeta (m : Metadata)
deriving DecidableEq, Repr

/-- The Python string value of a front-matter scalar (what ends up in a
`ContentFile` field when read without conversion). -/
def FMVal.asStr : FMVal → String
  | .vstr s => s
  | .vtime t => toString t
  | .vmeta _ => ""

/-- Model of `datetime.fromisoformat(front_matter[k])`: succeeds exactly on
ISO-formatted datetime values, raises (hence `none`, caught by the
surrounding `except`) on anything else. -/
def FMVal.asTime? : FMVal → Option DateTime
  | .vtime t => some t
  | _ => none

/-- One stored markdown file: its front-matter lines and its raw body (the
text written after `---\n\n`). -/
structure MDFile where
  front : List (String × FMVal)
  body : String
deriving DecidableEq, Repr

/-- The content directory: relative file path to file, one entry per file on
disk (`open(path, "w")` overwrites an existing path). -/
abbrev Store := List (String × MDFile)

/-- The lines `yaml.dump(..., default_flow_style=False)` emits for one
front-matter entry in the plain-scalar model: `key: value` for scalars, and
for the metadata dictionary a `key:` line followed by the indented nested
block (`  tag:` lines with `  - item` entries, an empty list inline as
`[]`). -/
def renderLines (k : String) : FMVal → List String
  | .vstr s => [k ++ ": " ++ s]
  | .vtime t => [k ++ ": " ++ toString t]
  | .vmeta m =>
      (k ++ ":") :: m.flatMap fun tag =>
        if tag.2.isEmpty then ["  " ++ tag.1 ++ ": []"]
        else ("  " ++ tag.1 ++ ":") :: tag.2.map (fun it => "  - " ++ it)

/-- All emitted front-matter lines of a file, in order. -/
def fmLines (front : List (String × FMVal)) : List String :=
  front.flatMap fun kv => renderLines kv.1 kv.2

/-- The emitted front-matter text: each line newline-terminated. -/
def rawText (front : List (String × FMVal)) : String :=
  String.join ((fmLines front).map (· ++ "\n"))

/-- The text that falls after the first `---` occurrence in a line list: the
remainder of the first dirty line, then the later lines verbatim (each
newline-terminated). -/
def afterLines : List String → String
  | [] => ""
  | l :: ls =>
      if lineClean l then afterLines ls
      else (splitTriple l).2 ++ "\n" ++ String.join (ls.map (· ++ "\n"))

/-- What the parser's truncation leaves of the entry a `---` occurrence lands
in: the entry as `yaml.safe_load` re-reads the cut line (a string value cut
at the occurrence with surrounding whitespace dropped; a partially emitted
metadata block keeps its key, and no consumer ever reads a metadata value),
together with the text past the occurrence that falls to the body. An
integer-rendered timestamp line can never contain `---`, so the `vtime` arm
is unreachable. The fixed top-level keys contain no dash, so the occurrence
always sits inside the rendered value (or inside the nested block). -/
def truncateEntry (k : String) : FMVal → List (String × FMVal) × String
  | .vstr s =>
      ([(k, FMVal.vstr (stripEnds Char.isWhitespace (splitTriple s).1))],
       (splitTriple s).2 ++ "\n")
  | .vtime t => ([(k, FMVal.vtime t)], "")
  | .vmeta m => ([(k, FMVal.vmeta [])], afterLines (renderLines k (.vmeta m)))

/-- The source's `end = text.find("---", 3)` scan over the emitted header
(markdown_store.py line 121): `none` when no header line contains `---`, so
the scan lands exactly on the closing delimiter; otherwise the front matter
`yaml.safe_load` actually sees (the entries before the occurrence, with the
entry it lands in truncated) together with the raw text between the
occurrence and the closing delimiter, which the parser hands to the body. -/
def scanFront : List (String × FMVal) → Option (List (String × FMVal) × String)
  | [] => none
  | (k, v) :: rest =>
      if (renderLines k v).all lineClean then
        match scanFront rest with
        | none => none
        | some (kept, after) => some ((k, v) :: kept, after)
      else
        some ((truncateEntry k v).1, (truncateEntry k v).2 ++ rawText rest)

/-- A parsed content record (`ContentFile` dataclass). It has no metadata
field: `_parse_content_file` never reads the `metadata` front-matter key. -/
structure ContentFile where
  id : String
  source_id : String
  source_name : String
  title : String
  url : String
  published_at : DateTime
  fetched_at : DateTime
  category : String
  author : Option String
  content : String
  file_path : String
deriving DecidableEq, Repr

/-- Python `\w` character class (ASCII model): letters, digits, underscore. -/
def isWordChar (c : Char) : Bool := c.isAlphanum || c = '_'

/-- Python `\s` character class (ASCII model). -/
def isSpaceChar (c : Char) : Bool := c = ' ' || c = '\t' || c = '\n' || c = '\r'

theorem length_dropWhile_le' {α : Type} (p : α → Bool) (l : List α) :
    (l.dropWhile p).length ≤ l.length := by
  induction l with
  | nil => simp [List.dropWhile]
  | cons c cs ih =>
    by_cases h : p c
    · simpa [List.dropWhile, h] using Nat.le_succ_of_le ih
    · simp [List.dropWhile, h]

/-- Replace every maximal run of characters satisfying `p` by the single
character `rep` (models `re.sub(r"X+", rep, s)` for a character class `X`). -/
def collapseRuns (p : Char → Bool) (rep : Char) : List Char → List Char
  | [] => []
  | c :: cs =>
      if p c then rep :: collapseRuns p rep (cs.dropWhile p)
      else c :: collapseRuns p rep cs
termination_by l => l.length
decreasing_by
  · exact Nat.lt_succ_of_le (length_dropWhile_le' p cs)
  · exact Nat.lt_succ_of_le (Nat.le_refl cs.length)

namespace MarkdownStore

/-- Embedding of `MarkdownStore._slugify`: lower-case, drop characters
outside word/space/hyphen, collapse space/underscore runs to `-`, collapse
`-` runs, truncate to 50 characters, strip leading/trailing `-`. -/
def slugify (text : String) : String :=
  let l := text.toList.map Char.toLower
  let l := l.filter fun c => isWordChar c || isSpaceChar c || c = '-'
  let l := collapseRuns (fun c => isSpaceChar c || c = '_') '-' l
  let l := collapseRuns (· = '-') '-' l
  String.mk (stripChar '-' (l.take 50))

/-- Model of `published_at.strftime("%Y-%m-%d")`: calendar dates are
abstracted to the day number, rendered as a string (two datetimes share the
rendered date exactly when they fall on the same day). -/
def dateStr (t : DateTime) : String := toString (t / 86400)

/-- The front-matter dictionary `store_content` builds, in the alphabetical
key order `yaml.dump` (with its default key sorting) emits it: author,
category, fetched_at, id, metadata, published_at, source_id, source_name,
title, url. `author` and `metadata` are emitted only when truthy, mirroring
`if author:` / `if metadata:`. -/
def contentFront (content_id source_id source_name title url : String)
    (published_at fetched_at : DateTime) (category : String)
    (author : Option String) (metadata : Metadata) : List (String × FMVal) :=
  (match author with
   | some a => if a = "" then [] else [("author", FMVal.vstr a)]
   | none => [])
  ++ [("category", FMVal.vstr category), ("fetched_at", FMVal.vtime fetched_at),
      ("id", FMVal.vstr content_id)]
  ++ (if metadata = [] then [] else [("metadata", FMVal.vmeta metadata)])
  ++ [("published_at", FMVal.vtime published_at),
      ("source_id", FMVal.vstr source_id),
      ("source_name", FMVal.vstr source_name),
      ("title", FMVal.vstr title), ("url", FMVal.vstr url)]

/-- Embedding of `MarkdownStore.store_content`. Returns the written file
path and the updated content directory. -/
def store_content (store : Store) (content_id source_id source_name title url
    content : String) (published_at fetched_at : DateTime) (category : String)
    (author : Option String := none) (metadata : Metadata := []) :
    String × Store :=
  let filename := dateStr published_at ++ "-" ++ slugify title ++ ".md"
  let file_path := source_id ++ "/" ++ filename
  let front := contentFront content_id source_id source_name title url
    published_at fetched_at category author metadata
  (file_path, mapSet store file_path { front := front, body := content })

/-- The field extraction of `_parse_content_file`, applied to the front
matter `yaml.safe_load` saw and the body text. A missing required key
(`KeyError`) or a non-datetime timestamp value (`fromisoformat` raising) is
caught by the enclosing `except` and yields `none`; `author` is read with
`.get`, so a missing author is `None`, not an error. -/
def parseFront (front : List (String × FMVal)) (contentText : String)
    (file_path : String) : Option ContentFile := do
  let idv ← mapGet front "id"
  let sidv ← mapGet front "source_id"
  let snv ← mapGet front "source_name"
  let titlev ← mapGet front "title"
  let urlv ← mapGet front "url"
  let pubv ← mapGet front "published_at"
  let pub ← pubv.asTime?
  let fetv ← mapGet front "fetched_at"
  let fet ← fetv.asTime?
  let catv ← mapGet front "category"
  some
    { id := idv.asStr, source_id := sidv.asStr, source_name := snv.asStr
      title := titlev.asStr, url := urlv.asStr
      published_at := pub, fetched_at := fet, category := catv.asStr
      author := (mapGet front "author").map FMVal.asStr
      content := contentText, file_path := file_path }

/-- Embedding of `MarkdownStore._parse_content_file`. The delimiter scan
`end = text.find("---", 3)` is modelled by `scanFront`: when no header line
contains `---` the scan lands on the closing delimiter, the whole front
matter is parsed and the body is the stored text stripped of surrounding
whitespace (the stored `\n\n` separator strips away); when a header value
does contain `---`, the front matter `yaml.safe_load` sees is truncated at
the occurrence and everything between the occurrence and the closing
delimiter (including that delimiter and the separator) leaks into the
body — the read-back record is garbled or, when a required key was cut off,
dropped. -/
def parse_content_file (file_path : String) (f : MDFile) : Option ContentFile :=
  match scanFront f.front with
  | none => parseFront f.front (pyStrip f.body) file_path
  | some (kept, after) =>
      parseFront kept (pyStrip (after ++ "---\n\n" ++ f.body)) file_path

/-- Insertion (descending by `published_at`) before the first strictly older
record, so later records with an equal timestamp keep their position. -/
def insertDesc (c : ContentFile) : List ContentFile → List ContentFile
  | [] => [c]
  | x :: xs =>
      if x.published_at < c.published_at then c :: x :: xs
      else x :: insertDesc c xs

/-- Stable descending sort by published time, modelling Python's stable
`list.sort(key=lambda x: x.published_at, reverse=True)`: each record is
inserted after every already-placed record with an equal or newer
timestamp. -/
def sortByPublishedDesc (l : List ContentFile) : List ContentFile :=
  l.foldl (fun acc c => insertDesc c acc) []

/-- Embedding of `MarkdownStore.get_content_since`: parse every stored file,
keep records fetched at or after `since` (unparsable files are skipped), and
sort by published time descending. -/
def get_content_since (store : Store) (since : DateTime) : List ContentFile :=
  let results := store.filterMap fun pf =>
    match parse_content_file pf.1 pf.2 with
    | some cf => if since ≤ cf.fetched_at then some cf else none
    | none => none
  sortByPublishedDesc results

end MarkdownStore

/- ## Duplicate index (`src/storage/deduplicator.py`) -/

/-- Python `set.add` on the duplicate-index id set (kept as a duplicate-free
list). -/
def insertId (ids : List String) (x : String) : List String :=
  if x ∈ ids then ids else ids ++ [x]

/-- A persisted JSON file as found at load time: absent, unparsable, or
parsed to a payload. -/
inductive DiskJson (α : Type)
  | missing
  | corrupt
  | valid (data : α)
deriving DecidableEq, Repr

namespace Deduplicator

/-- Membership test (`Deduplicator.exists`, `content_id in self._ids`). -/
def idExists (ids : List String) (content_id : String) : Bool :=
  decide (content_id ∈ ids)

/-- Insert plus write-through persistence (`Deduplicator.add`). -/
def add (ids : List String) (content_id : String) : List String :=
  insertId ids content_id

/-- Embedding of `Deduplicator._load`: a missing index file leaves the set
empty; an existing file is fed to `json.load`, which raises on unparsable
content — and `_load` has no exception handler, so that error propagates to
the constructor (modelled as `Except.error`); a parsed file yields
`set(data.get("ids", []))` (a payload without the key is `valid []`). -/
def load : DiskJson (List String) → Except String (List String)
  | .missing => .ok []
  | .corrupt => .error "json.decoder.JSONDecodeError"
  | .valid ids => .ok ids

end Deduplicator

/-- Embedding of `SourceStateManager._load`: a missing file or any exception
while reading/parsing (the body is wrapped in `try ... except Exception:
pass`) leaves the state map empty; a parsed file yields its states. -/
def SourceStateManager.load : DiskJson StateMap → StateMap
  | .missing => []
  | .corrupt => []
  | .valid m => m

/- ## Feed fetcher (`src/collection/fetchers/base_fetcher.py`,
`src/collection/fetchers/rss_fetcher.py`) -/

/-- One unit of fetched content (`FetchResult` dataclass). -/
structure FetchResult where
  id : String
  source_id : String
  title : String
  content : String
  url : String
  published_at : DateTime
  fetched_at : DateTime
  author : Option String := none
  metadata : Metadata := []
deriving DecidableEq, Repr

/-- The result of one fetch attempt (`FetchOutcome` dataclass). -/
structure FetchOutcome where
  success : Bool
  results : List FetchResult
  error_message : Option String := none
  error_type : Option String := none
deriving DecidableEq, Repr

/-- One feed entry as handed to `_parse_entry` by `feedparser`. Optional
string fields are `none` when the key is absent (`entry.get(k) is None`);
an empty string models a present-but-falsy value. `contentField` flattens
`entry.content[0].get("value", "")` behind the `"content" in entry and
entry.content` guard. `fullArticle` is the environment's answer to the
enrichment fetch `_fetch_full_article(url)` (`none` covers both a download
failure and an empty extraction). `malformed` marks an entry whose attribute
access raises inside `_parse_entry` (caught by its `except`). -/
structure FeedEntry where
  entryId : Option String := none
  link : Option String := none
  title : Option String := none
  contentField : Option String := none
  summary : Option String := none
  description : Option String := none
  published_parsed : Option DateTime := none
  updated_parsed : Option DateTime := none
  author : Option String := none
  tags : List (Option String) := []
  fullArticle : Option String := none
  malformed : Bool := false
deriving DecidableEq, Repr

/-- What `feedparser.parse(source.url)` produced: either the call (or the
entry loop around it) raised, or a parse object with its bozo flag, bozo
exception rendering, and entries. -/
inductive FeedParseResult
  | raised (msg ty : String)
  | parsed (bozo : Bool) (bozoMsg bozoTy : String) (entries : List FeedEntry)
deriving DecidableEq, Repr

/-- Python `a or b` on optional strings: the first truthy operand, else `b`
unchanged. -/
def pyOr (a b : Option String) : Option String :=
  match a with
  | some s => if s = "" then b else some s
  | none => b

/-- Python `a or b` where `b` is a plain string: `a` unless it is `None` or
empty (falsy), else `b`. -/
def pyOrStr (a : Option String) (b : String) : String :=
  match a with
  | some s => if s = "" then b else s
  | none => b

/-- Whether the chosen body looks like a teaser that only links out
(`"<a href=" in content`). -/
def hasAnchor (s : String) : Bool := (s.splitOn "<a href=").length > 1

namespace RSSFetcher

/-- Embedding of `RSSFetcher._parse_entry`. Returns `none` (entry silently
dropped) when no identifier is available or when the entry raises. -/
def parse_entry (entry : FeedEntry) (source : Source) (fetched_at : DateTime) :
    Option FetchResult :=
  if entry.malformed then none
  else
    match pyOr (pyOr entry.entryId entry.link) entry.title with
    | none => none
    | some eid =>
      if eid = "" then none
      else
        let title := entry.title.getD "Untitled"
        let url := (entry.link.getD "")
        let content :=
          match entry.contentField with
          | some v => v
          | none =>
            match entry.summary with
            | some s => s
            | none => entry.description.getD ""
        let content :=
          if url ≠ "" && (content.length < 500 || hasAnchor content) then
            match entry.fullArticle with
            | some fa => if fa ≠ "" && content.length < fa.length then fa else content
            | none => content
          else content
        let published_at :=
          match entry.published_parsed with
          | some t => t
          | none =>
            match entry.updated_parsed with
            | some t => t
            | none => fetched_at
        some
          { id := eid, source_id := source.id, title := title
            content := content, url := url
            published_at := published_at, fetched_at := fetched_at
            author := entry.author
            metadata := [("tags",
              entry.tags.filterMap fun o =>
                match o with
                | some s => if s = "" then none else some s
                | none => none)] }

/-- Embedding of `RSSFetcher.fetch`. The network/parse effect arrives as the
`feed` argument together with the `fetched_at` clock reading; the whole body
is wrapped in `try ... except`, so the embedding is a total function into
`FetchOutcome` — no input makes it raise. -/
def fetch (source : Source) (feed : FeedParseResult) (fetched_at : DateTime) :
    FetchOutcome :=
  match feed with
  | .raised msg ty =>
      { success := false, results := [], error_message := some msg
        error_type := some ty }
  | .parsed bozo bozoMsg bozoTy entries =>
      if bozo && entries.isEmpty then
        { success := false, results := [], error_message := some bozoMsg
          error_type := some bozoTy }
      else
        { success := true
          results := entries.filterMap fun e => parse_entry e source fetched_at }

end RSSFetcher

/- ## Collection coordinator (`src/collection/coordinator.py`) -/

/-- Per-run aggregate statistics (`CollectionStats` dataclass). -/
structure CollectionStats where
  sources_processed : Nat := 0
  items_fetched : Nat := 0
  items_stored : Nat := 0
  items_skipped_duplicate : Nat := 0
  errors : Nat := 0
deriving DecidableEq, Repr

/-- Componentwise sum of statistics (used to express how counters shift). -/
def statsAdd (a b : CollectionStats) : CollectionStats :=
  { sources_processed := a.sources_processed + b.sources_processed
    items_fetched := a.items_fetched + b.items_fetched
    items_stored := a.items_stored + b.items_stored
    items_skipped_duplicate := a.items_skipped_duplicate + b.items_skipped_duplicate
    errors := a.errors + b.errors }

/-- The mutable stores the coordinator threads through a run: the duplicate
index id set, the content directory, and the per-source state map. -/
structure CoordState where
  dedup : List String
  store : Store
  states : StateMap
deriving DecidableEq, Repr

/-- Environmental inputs to one `collect_source` call: the fetcher's outcome,
the clock reading `datetime.utcnow()` taken when the cutoff is computed, the
rendered timestamp the state manager records, and the measured duration. -/
structure CollectEnv where
  outcome : FetchOutcome
  now : DateTime
  nowIso : String
  duration : Int
deriving DecidableEq, Repr

/-- Model of `self._registry.get_source_by_id`. -/
def getSourceById (registry : List Source) (source_id : String) : Option Source :=
  registry.find? fun s => s.id = source_id

/-- Model of `self._fetchers.get(source.type.value)`: the constructor
registers exactly the RSS fetcher, and `SourceType` has exactly the `rss`
member, so the lookup always succeeds — but the miss branch of
`collect_source` is still embedded below. -/
def fetcherFor : SourceType → Option Unit
  | .rss => some ()

/-- The accumulator of the per-item loop in `collect_source`. `storedLog` is
an auxiliary trace listing, in order, the items passed to `store_content`
(each immediately followed by `Deduplicator.add` of its id); it adds no
behaviour, it only names what the loop stored. -/
structure LoopAcc where
  stats : CollectionStats
  dedup : List String
  store : Store
  items_stored : Nat
  storedLog : List FetchResult
deriving DecidableEq, Repr

namespace Coordinator

/-- One iteration of the `for result in outcome.results:` loop in
`collect_source`: count the item, drop it when published before the cutoff,
skip-and-count it when (without `force`) its id is already indexed, else
resolve the display name, store it, index its id, and count it stored. -/
def collectStep (registry : List Source) (source : Source) (force : Bool)
    (cutoff : DateTime) (acc : LoopAcc) (r : FetchResult) : LoopAcc :=
  let acc := { acc with stats := { acc.stats with
    items_fetched := acc.stats.items_fetched + 1 } }
  if r.published_at < cutoff then acc
  else if !force && Deduplicator.idExists acc.dedup r.id then
    { acc with stats := { acc.stats with
        items_skipped_duplicate := acc.stats.items_skipped_duplicate + 1 } }
  else
    let source_name :=
      match getSourceById registry r.source_id with
      | some s => s.name
      | none => r.source_id
    let written := MarkdownStore.store_content acc.store r.id r.source_id
      source_name r.title r.url r.content r.published_at r.fetched_at
      source.category r.author r.metadata
    { stats := { acc.stats with items_stored := acc.stats.items_stored + 1 }
      dedup := Deduplicator.add acc.dedup r.id
      store := written.2
      items_stored := acc.items_stored + 1
      storedLog := acc.storedLog ++ [r] }

/-- Embedding of `Coordinator.collect_source`. Returns the run statistics,
the updated stores, and the auxiliary trace of items passed to
`store_content`. On a failed fetch the failure is recorded (the coordinator
wraps the outcome's message in a bare `Exception`, so the recorded type name
is `"Exception"` and a missing or empty message is replaced by
`"Unknown error"` — Python's falsy `or`); on a
successful fetch the cutoff is `utcnow - timedelta(days=max_age_days)` and
the per-item loop runs, after which the success is recorded with the number
of items actually stored. -/
def collect_source (registry : List Source) (maxAgeDays : Int) (st : CoordState)
    (source : Source) (force : Bool) (env : CollectEnv) :
    CollectionStats × CoordState × List FetchResult :=
  let stats : CollectionStats := { sources_processed := 1 }
  match fetcherFor source.type with
  | none => ({ stats with errors := 1 }, st, [])
  | some _ =>
    if env.outcome.success = false then
      let states' := SourceStateManager.record_failure st.states source.id
        (pyOrStr env.outcome.error_message "Unknown error") "Exception"
        env.duration env.nowIso
      ({ stats with errors := 1 }, { st with states := states' }, [])
    else
      let cutoff := env.now - maxAgeDays * 86400
      let acc := env.outcome.results.foldl
        (collectStep registry source force cutoff)
        { stats := stats, dedup := st.dedup, store := st.store
          items_stored := 0, storedLog := [] }
      let states' := SourceStateManager.record_success st.states source.id
        acc.items_stored env.duration env.nowIso
      (acc.stats,
        { dedup := acc.dedup, store := acc.store, states := states' },
        acc.storedLog)

end Coordinator

/- ## Helper lemmas: source state tracker -/

theorem stateOf_mapSet_self (m : StateMap) (k : String) (v : SourceState) :
    stateOf (mapSet m k v) k = v := by
  simp [stateOf, SourceStateManager.get_state, mapGet_mapSet_self]

theorem stateOf_mapSet_ne (m : StateMap) (k k' : String) (v : SourceState)
    (h : k' ≠ k) : stateOf (mapSet m k v) k' = stateOf m k' := by
  simp [stateOf, SourceStateManager.get_state, mapGet_mapSet_ne _ _ _ _ h]

theorem fetch_history_applyEvent (sid : String) (m : StateMap) (e : FetchEvent) :
    (stateOf (applyEvent sid m e) sid).fetch_history
      = (entryOfEvent e :: (stateOf m sid).fetch_history).take
          SourceStateManager.MAX_HISTORY_ENTRIES := by
  cases e <;>
    simp [applyEvent, SourceStateManager.record_success,
      SourceStateManager.record_failure, entryOfEvent,
      stateOf, SourceStateManager.get_state, mapGet_mapSet_self]

theorem total_mono_applyEvent (sid : String) (m : StateMap) (e : FetchEvent)
    (sid' : String) :
    (stateOf m sid').total_items_fetched
      ≤ (stateOf (applyEvent sid m e) sid').total_items_fetched := by
  by_cases h : sid' = sid
  · subst h
    cases e <;>
      simp [applyEvent, SourceStateManager.record_success,
        SourceStateManager.record_failure, stateOf,
        SourceStateManager.get_state, mapGet_mapSet_self]
  · cases e <;>
      simp [applyEvent, SourceStateManager.record_success,
        SourceStateManager.record_failure, stateOf,
        SourceStateManager.get_state, mapGet_mapSet_ne _ _ _ _ h]

theorem total_mono_runEvents (sid : String) (evs : List FetchEvent) (m : StateMap)
    (sid' : String) :
    (stateOf m sid').total_items_fetched
      ≤ (stateOf (runEvents sid m evs) sid').total_items_fetched := by
  induction evs generalizing m with
  | nil => simp [runEvents]
  | cons e evs ih =>
    have h1 : runEvents sid m (e :: evs) = runEvents sid (applyEvent sid m e) evs := rfl
    rw [h1]
    exact Nat.le_trans (total_mono_applyEvent sid m e sid') (ih (applyEvent sid m e))

theorem take_append_take {α : Type} (n : Nat) (l1 l2 : List α) :
    (l1 ++ l2.take n).take n = (l1 ++ l2).take n := by
  rw [List.take_append_eq_append_take, List.take_append_eq_append_take,
    List.take_take, Nat.min_eq_left (Nat.sub_le n l1.length)]

theorem runEvents_history (sid : String) (evs : List FetchEvent) (m : StateMap)
    (hcap : (stateOf m sid).fetch_history.length
      ≤ SourceStateManager.MAX_HISTORY_ENTRIES) :
    (stateOf (runEvents sid m evs) sid).fetch_history
      = ((evs.map entryOfEvent).reverse ++ (stateOf m sid).fetch_history).take
          SourceStateManager.MAX_HISTORY_ENTRIES := by
  induction evs generalizing m with
  | nil => simpa [runEvents] using (List.take_of_length_le hcap).symm
  | cons e evs ih =>
    have h1 := fetch_history_applyEvent sid m e
    have hcap' : (stateOf (applyEvent sid m e) sid).fetch_history.length
        ≤ SourceStateManager.MAX_HISTORY_ENTRIES := by
      rw [h1]; exact List.length_take_le _ _
    have h2 := ih (applyEvent sid m e) hcap'
    have h3 : runEvents sid m (e :: evs) = runEvents sid (applyEvent sid m e) evs := rfl
    rw [h3, h2, h1, take_append_take]
    simp [List.append_assoc]

/- ## Helper lemmas: duplicate index -/

theorem mem_insertId (ids : List String) (x y : String) :
    y ∈ insertId ids x ↔ y ∈ ids ∨ y = x := by
  by_cases h : x ∈ ids
  · simp only [insertId, if_pos h]
    exact ⟨Or.inl, fun hy => hy.elim id fun hyx => hyx ▸ h⟩
  · simp [insertId, h]

theorem insertId_of_mem (ids : List String) (x : String) (h : x ∈ ids) :
    insertId ids x = ids := by
  simp [insertId, h]

/-- Claim C8 fails as stated: the state manager's load tolerates a corrupt
file, but the duplicate index's `_load` calls `json.load` with no exception
handler, so an unparsable index file raises instead of resetting to empty. -/
theorem C8_load_counterexample :
    Deduplicator.load DiskJson.corrupt = Except.error "json.decoder.JSONDecodeError"
    ∧ Deduplicator.load DiskJson.corrupt ≠ Except.ok [] :=
  ⟨rfl, fun h => Except.noConfusion h⟩

/-- Claim C8, amended: a missing file is tolerated by both components
(empty id set, empty state map), and the state manager also tolerates a
corrupt file by starting empty — but the duplicate index raises on a corrupt
file at load time. -/
theorem C8_load_tolerance :
    Deduplicator.load DiskJson.missing = Except.ok []
    ∧ SourceStateManager.load DiskJson.missing = []
    ∧ SourceStateManager.load DiskJson.corrupt = []
    ∧ Deduplicator.load DiskJson.corrupt
        = Except.error "json.decoder.JSONDecodeError" :=
  ⟨rfl, rfl, rfl, rfl⟩

/-- Claim C5: after `record_success` the consecutive-failure counter is 0;
after `record_failure` it is its prior value (of the looked-up-or-fresh
state) plus one; and across any sequence of recorded attempts the cumulative
`total_items_fetched` of every source never decreases. -/
theorem C5_failure_counter_and_total (m : StateMap) (sid : String)
    (items : Nat) (dur : Int) (iso err ty : String) :
    ((SourceStateManager.get_state
        (SourceStateManager.record_success m sid items dur iso) sid).map
      (·.consecutive_failures)) = some 0
    ∧ ((SourceStateManager.get_state
        (SourceStateManager.record_failure m sid err ty dur iso) sid).map
      (·.consecutive_failures)) = some ((stateOf m sid).consecutive_failures + 1)
    ∧ ∀ (evs : List FetchEvent) (sid' : String),
        (stateOf m sid').total_items_fetched
          ≤ (stateOf (runEvents sid m evs) sid').total_items_fetched := by
  refine ⟨?_, ?_, fun evs sid' => total_mono_runEvents sid evs m sid'⟩
  · simp [SourceStateManager.record_success, SourceStateManager.get_state,
      mapGet_mapSet_self]
  · simp [SourceStateManager.record_failure, SourceStateManager.get_state,
      mapGet_mapSet_self, stateOf]

/-- Claim C6: starting from any state whose history is within the cap, after
any sequence of recorded attempts the history is the most-recent-first list
of the new entries followed by the prior entries, truncated to
`MAX_HISTORY_ENTRIES = 10` — so its length never exceeds the cap and the
entries evicted at the cap are always the oldest ones. -/
theorem C6_history_bounded_most_recent_first (m : StateMap) (sid : String)
    (evs : List FetchEvent)
    (hcap : (stateOf m sid).fetch_history.length
      ≤ SourceStateManager.MAX_HISTORY_ENTRIES) :
    (stateOf (runEvents sid m evs) sid).fetch_history
      = ((evs.map entryOfEvent).reverse ++ (stateOf m sid).fetch_history).take
          SourceStateManager.MAX_HISTORY_ENTRIES
    ∧ (stateOf (runEvents sid m evs) sid).fetch_history.length
        ≤ SourceStateManager.MAX_HISTORY_ENTRIES := by
  have h := runEvents_history sid evs m hcap
  exact ⟨h, by rw [h]; exact List.length_take_le _ _⟩

/-- Witness for C6 at a concrete input: eleven successful attempts on a fresh
state leave exactly the ten most recent entries. -/
theorem C6_history_bounded_most_recent_first_witness :
    (stateOf (runEvents "s" []
        ((List.range 11).map fun i => FetchEvent.success i 0 (toString i))) "s").fetch_history
      = ((((List.range 11).map fun i => FetchEvent.success i 0 (toString i)).map
            entryOfEvent).reverse
          ++ (stateOf ([] : StateMap) "s").fetch_history).take
          SourceStateManager.MAX_HISTORY_ENTRIES
    ∧ (stateOf (runEvents "s" []
        ((List.range 11).map fun i => FetchEvent.success i 0 (toString i))) "s").fetch_history.length
        ≤ SourceStateManager.MAX_HISTORY_ENTRIES :=
  C6_history_bounded_most_recent_first [] "s"
    ((List.range 11).map fun i => FetchEvent.success i 0 (toString i))
    (by decide)

/- ## Helper lemmas: coordinator loop -/

theorem collectStep_cases (registry : List Source) (source : Source)
    (force : Bool) (cutoff : DateTime) (acc : LoopAcc) (r : FetchResult) :
    ((Coordinator.collectStep registry source force cutoff acc r).storedLog
        = acc.storedLog
      ∧ (Coordinator.collectStep registry source force cutoff acc r).dedup
        = acc.dedup)
    ∨ ((Coordinator.collectStep registry source force cutoff acc r).storedLog
        = acc.storedLog ++ [r]
      ∧ (Coordinator.collectStep registry source force cutoff acc r).dedup
        = insertId acc.dedup r.id) := by
  unfold Coordinator.collectStep
  by_cases h1 : r.published_at < cutoff
  · left; simp [h1]
  · by_cases h2 : (!force && Deduplicator.idExists acc.dedup r.id) = true
    · left; simp [h1, h2]
    · right; simp [h1, h2, Deduplicator.add]

theorem collect_source_success (registry : List Source) (maxAgeDays : Int)
    (st : CoordState) (source : Source) (force : Bool) (env : CollectEnv)
    (hsucc : env.outcome.success = true) :
    Coordinator.collect_source registry maxAgeDays st source force env
      = ((env.outcome.results.foldl
            (Coordinator.collectStep registry source force
              (env.now - maxAgeDays * 86400))
            { stats := { sources_processed := 1 }, dedup := st.dedup
              store := st.store, items_stored := 0, storedLog := [] }).stats,
         { dedup := (env.outcome.results.foldl
              (Coordinator.collectStep registry source force
                (env.now - maxAgeDays * 86400))
              { stats := { sources_processed := 1 }, dedup := st.dedup
                store := st.store, items_stored := 0, storedLog := [] }).dedup
           store := (env.outcome.results.foldl
              (Coordinator.collectStep registry source force
                (env.now - maxAgeDays * 86400))
              { stats := { sources_processed := 1 }, dedup := st.dedup
                store := st.store, items_stored := 0, storedLog := [] }).store
           states := SourceStateManager.record_success st.states source.id
              (env.outcome.results.foldl
                (Coordinator.collectStep registry source force
                  (env.now - maxAgeDays * 86400))
                { stats := { sources_processed := 1 }, dedup := st.dedup
                  store := st.store, items_stored := 0, storedLog := [] }).items_stored
              env.duration env.nowIso },
         (env.outcome.results.foldl
            (Coordinator.collectStep registry source force
              (env.now - maxAgeDays * 86400))
            { stats := { sources_processed := 1 }, dedup := st.dedup
              store := st.store, items_stored := 0, storedLog := [] }).storedLog) := by
  cases htype : source.type
  unfold Coordinator.collect_source
  rw [htype]
  simp [fetcherFor, hsucc]

theorem collect_source_failure (registry : List Source) (maxAgeDays : Int)
    (st : CoordState) (source : Source) (force : Bool) (env : CollectEnv)
    (hfail : env.outcome.success = false) :
    Coordinator.collect_source registry maxAgeDays st source force env
      = ({ sources_processed := 1, errors := 1 },
         { st with states := (SourceStateManager.record_failure st.states source.id
            (pyOrStr env.outcome.error_message "Unknown error") "Exception"
            env.duration env.nowIso) },
         []) := by
  cases htype : source.type
  unfold Coordinator.collect_source
  rw [htype]
  simp [fetcherFor, hfail]

theorem collect_loop_dedup_log (registry : List Source) (source : Source)
    (force : Bool) (cutoff : DateTime) (items : List FetchResult) (acc : LoopAcc) :
    ∃ t, (items.foldl (Coordinator.collectStep registry source force cutoff) acc).storedLog
        = acc.storedLog ++ t
      ∧ ∀ cid,
        cid ∈ (items.foldl (Coordinator.collectStep registry source force cutoff) acc).dedup
          ↔ cid ∈ acc.dedup ∨ cid ∈ t.map (·.id) := by
  induction items generalizing acc with
  | nil => exact ⟨[], by simp⟩
  | cons r items ih =>
    rw [List.foldl_cons]
    obtain ⟨t, ht, hmem⟩ := ih (Coordinator.collectStep registry source force cutoff acc r)
    rcases collectStep_cases registry source force cutoff acc r with
      ⟨hlog, hded⟩ | ⟨hlog, hded⟩
    · exact ⟨t, by rw [ht, hlog], fun cid => by rw [hmem cid, hded]⟩
    · refine ⟨r :: t, by rw [ht, hlog]; simp, fun cid => ?_⟩
      rw [hmem cid, hded, mem_insertId]
      simp only [List.map_cons, List.mem_cons]
      tauto

theorem collectStep_statsShift (registry : List Source) (source : Source)
    (force : Bool) (cutoff : DateTime) (acc : LoopAcc) (r : FetchResult)
    (d : CollectionStats) :
    Coordinator.collectStep registry source force cutoff
      { acc with stats := statsAdd acc.stats d } r
    = { Coordinator.collectStep registry source force cutoff acc r with
        stats := statsAdd
          (Coordinator.collectStep registry source force cutoff acc r).stats d } := by
  unfold Coordinator.collectStep
  by_cases h1 : r.published_at < cutoff
  · simp [h1, statsAdd]
    omega
  · by_cases h2 : (!force && Deduplicator.idExists acc.dedup r.id) = true
    · simp [h1, h2, statsAdd]
      omega
    · simp [h1, h2, statsAdd]
      omega

theorem collect_loop_statsShift (registry : List Source) (source : Source)
    (force : Bool) (cutoff : DateTime) (items : List FetchResult)
    (acc : LoopAcc) (d : CollectionStats) :
    items.foldl (Coordinator.collectStep registry source force cutoff)
      { acc with stats := statsAdd acc.stats d }
    = { items.foldl (Coordinator.collectStep registry source force cutoff) acc with
        stats := statsAdd
          (items.foldl (Coordinator.collectStep registry source force cutoff) acc).stats d } := by
  induction items generalizing acc with
  | nil => rfl
  | cons r items ih =>
    rw [List.foldl_cons, List.foldl_cons, collectStep_statsShift, ih]

theorem collect_loop_dedup_mono (registry : List Source) (source : Source)
    (force : Bool) (cutoff : DateTime) (items : List FetchResult)
    (acc : LoopAcc) (cid : String) (h : cid ∈ acc.dedup) :
    cid ∈ (items.foldl (Coordinator.collectStep registry source force cutoff) acc).dedup := by
  induction items generalizing acc with
  | nil => exact h
  | cons r items ih =>
    rw [List.foldl_cons]
    apply ih
    rcases collectStep_cases registry source force cutoff acc r with
      ⟨_, hd⟩ | ⟨_, hd⟩
    · rw [hd]; exact h
    · rw [hd, mem_insertId]; exact Or.inl h

theorem collectStep_aged (registry : List Source) (source : Source)
    (force : Bool) (cutoff : DateTime) (acc : LoopAcc) (r : FetchResult)
    (h : r.published_at < cutoff) :
    Coordinator.collectStep registry source force cutoff acc r
      = { acc with stats := statsAdd acc.stats { items_fetched := 1 } } := by
  unfold Coordinator.collectStep
  simp [h, statsAdd]

theorem collectStep_dup (registry : List Source) (source : Source)
    (cutoff : DateTime) (acc : LoopAcc) (r : FetchResult)
    (h1 : ¬ r.published_at < cutoff)
    (h2 : Deduplicator.idExists acc.dedup r.id = true) :
    Coordinator.collectStep registry source false cutoff acc r
      = { acc with stats :=
            (statsAdd acc.stats { items_fetched := 1, items_skipped_duplicate := 1 }) } := by
  unfold Coordinator.collectStep
  simp [h1, h2, statsAdd]

theorem collect_loop_removal (registry : List Source) (source : Source)
    (force : Bool) (cutoff : DateTime) (pre post : List FetchResult)
    (acc : LoopAcc) (r : FetchResult) (d : CollectionStats)
    (hstep : Coordinator.collectStep registry source force cutoff
        (pre.foldl (Coordinator.collectStep registry source force cutoff) acc) r
      = { pre.foldl (Coordinator.collectStep registry source force cutoff) acc with
          stats := statsAdd
            (pre.foldl (Coordinator.collectStep registry source force cutoff) acc).stats d }) :
    (pre ++ [r] ++ post).foldl (Coordinator.collectStep registry source force cutoff) acc
      = { (pre ++ post).foldl (Coordinator.collectStep registry source force cutoff) acc with
          stats := statsAdd
            ((pre ++ post).foldl (Coordinator.collectStep registry source force cutoff) acc).stats d } := by
  rw [List.foldl_append, List.foldl_append, List.foldl_append,
    List.foldl_cons, List.foldl_nil, hstep, collect_loop_statsShift]

theorem statsAdd_fetched (s : CollectionStats) :
    statsAdd s { items_fetched := 1 }
      = { s with items_fetched := s.items_fetched + 1 } := by
  simp [statsAdd]

theorem statsAdd_fetched_skipped (s : CollectionStats) :
    statsAdd s { items_fetched := 1, items_skipped_duplicate := 1 }
      = { s with items_fetched := s.items_fetched + 1, items_skipped_duplicate := s.items_skipped_duplicate + 1 } := by
  simp [statsAdd]

/-- Claim C10: `Deduplicator.add` is idempotent on an already-present
identifier, and on every path of `collect_source` — force or not, fetch
failure or success — the final duplicate index holds exactly the initial
identifiers plus the identifiers of the items passed to `store_content`
(each id is inserted right after its store write), so an index that tracked
the ever-stored identifiers before the call still tracks them after it. -/
theorem C10_index_tracks_stored :
    (∀ (ids : List String) (cid : String), cid ∈ ids →
      Deduplicator.add ids cid = ids)
    ∧ ∀ (registry : List Source) (maxAgeDays : Int) (st : CoordState)
        (source : Source) (force : Bool) (env : CollectEnv) (cid : String),
        cid ∈ (Coordinator.collect_source registry maxAgeDays st source force env).2.1.dedup
          ↔ cid ∈ st.dedup
            ∨ cid ∈ (Coordinator.collect_source registry maxAgeDays st source force env).2.2.map
                (·.id) := by
  refine ⟨fun ids cid h => insertId_of_mem ids cid h, ?_⟩
  intro registry maxAgeDays st source force env cid
  by_cases hs : env.outcome.success = false
  · rw [collect_source_failure registry maxAgeDays st source force env hs]
    simp
  · have hsucc : env.outcome.success = true := by
      revert hs; cases env.outcome.success <;> simp
    rw [collect_source_success registry maxAgeDays st source force env hsucc]
    obtain ⟨t, ht, hmem⟩ := collect_loop_dedup_log registry source force
      (env.now - maxAgeDays * 86400) env.outcome.results
      { stats := { sources_processed := 1 }, dedup := st.dedup
        store := st.store, items_stored := 0, storedLog := [] }
    rw [hmem cid, ht]
    simp

/-- Witness for C10 at a concrete input: adding a present id is a no-op, and
after a run storing one new item the index is the initial ids plus the
stored item's id. -/
theorem C10_index_tracks_stored_witness :
    Deduplicator.add ["a", "b"] "a" = ["a", "b"]
    ∧ ("n" ∈ (Coordinator.collect_source
          [{ id := "s1", name := "One", type := .rss, url := "u", category := "c" }]
          7
          { dedup := ["a", "b"], store := [], states := [] }
          { id := "s1", name := "One", type := .rss, url := "u", category := "c" }
          false
          { outcome := { success := true, results :=
              [{ id := "n", source_id := "s1", title := "T", content := "x"
                 url := "u1", published_at := 1000000, fetched_at := 1000000 }] }
            now := 1000000, nowIso := "T1", duration := 0 }).2.1.dedup
        ↔ "n" ∈ (["a", "b"] : List String)
          ∨ "n" ∈ ((Coordinator.collect_source
          [{ id := "s1", name := "One", type := .rss, url := "u", category := "c" }]
          7
          { dedup := ["a", "b"], store := [], states := [] }
          { id := "s1", name := "One", type := .rss, url := "u", category := "c" }
          false
          { outcome := { success := true, results :=
              [{ id := "n", source_id := "s1", title := "T", content := "x"
                 url := "u1", published_at := 1000000, fetched_at := 1000000 }] }
            now := 1000000, nowIso := "T1", duration := 0 }).2.2.map (·.id))) :=
  ⟨C10_index_tracks_stored.1 ["a", "b"] "a" (by decide),
   C10_index_tracks_stored.2 _ 7 _ _ false _ "n"⟩

/-- Claim C2 fails as stated: the age filter runs before the duplicate
check, so an already-indexed item that is also older than the cutoff is
dropped by the age branch and the skipped-duplicate counter stays 0 instead
of increasing by one. -/
theorem C2_duplicate_skip_counterexample :
    ("dup" ∈ (({ dedup := ["dup"], store := [], states := [] } : CoordState)).dedup)
    ∧ (Coordinator.collect_source
        [{ id := "s1", name := "One", type := .rss, url := "u", category := "c" }]
        7
        { dedup := ["dup"], store := [], states := [] }
        { id := "s1", name := "One", type := .rss, url := "u", category := "c" }
        false
        { outcome := { success := true, results :=
            [{ id := "dup", source_id := "s1", title := "T", content := "x"
               url := "u1", published_at := 0, fetched_at := 0 }] }
          now := 1000000, nowIso := "T", duration := 0 }).1.items_skipped_duplicate
      = 0 := by
  exact ⟨by decide, rfl⟩

/-- Claim C2, amended: with `force=false`, every fetched item whose id is
already in the duplicate index and which passes the age filter is not passed
to `store_content`, leaves the index and stores exactly as they would be
without it, and bumps the skipped-duplicate counter by exactly one (plus the
fetched counter); an already-indexed item dropped by the age filter is not
counted as skipped. -/
theorem C2_duplicate_skipped (registry : List Source) (maxAgeDays : Int)
    (st : CoordState) (source : Source) (env : CollectEnv)
    (pre post : List FetchResult) (r : FetchResult)
    (hsucc : env.outcome.success = true)
    (hres : env.outcome.results = pre ++ [r] ++ post)
    (hdup : r.id ∈ st.dedup)
    (hage : ¬ r.published_at < env.now - maxAgeDays * 86400) :
    (Coordinator.collect_source registry maxAgeDays st source false env).2
      = (Coordinator.collect_source registry maxAgeDays st source false
          { env with outcome := { env.outcome with results := pre ++ post } }).2
    ∧ (Coordinator.collect_source registry maxAgeDays st source false env).1
      = statsAdd
          (Coordinator.collect_source registry maxAgeDays st source false
            { env with outcome := { env.outcome with results := pre ++ post } }).1
          { items_fetched := 1, items_skipped_duplicate := 1 } := by
  have hsucc' : ({ env with outcome := { env.outcome with results := pre ++ post } } : CollectEnv).outcome.success = true := hsucc
  rw [collect_source_success registry maxAgeDays st source false env hsucc,
    collect_source_success registry maxAgeDays st source false _ hsucc']
  have hmemP : r.id ∈ (pre.foldl
      (Coordinator.collectStep registry source false (env.now - maxAgeDays * 86400))
      { stats := { sources_processed := 1 }, dedup := st.dedup
        store := st.store, items_stored := 0, storedLog := [] }).dedup :=
    collect_loop_dedup_mono registry source false (env.now - maxAgeDays * 86400)
      pre _ r.id hdup
  have hstep := collectStep_dup registry source (env.now - maxAgeDays * 86400)
    (pre.foldl
      (Coordinator.collectStep registry source false (env.now - maxAgeDays * 86400))
      { stats := { sources_processed := 1 }, dedup := st.dedup
        store := st.store, items_stored := 0, storedLog := [] })
    r hage (by simp [Deduplicator.idExists, hmemP])
  have hrem := collect_loop_removal registry source false
    (env.now - maxAgeDays * 86400) pre post
    { stats := { sources_processed := 1 }, dedup := st.dedup
      store := st.store, items_stored := 0, storedLog := [] }
    r { items_fetched := 1, items_skipped_duplicate := 1 } hstep
  rw [hres, hrem]
  exact ⟨rfl, rfl⟩

/-- Witness for C2 at a concrete input: one fetched item, already indexed
and inside the age window, is skipped: relative to the run without it, the
state is unchanged and the statistics gain one fetched and one skipped. -/
theorem C2_duplicate_skipped_witness :
    (Coordinator.collect_source
        [{ id := "s1", name := "One", type := .rss, url := "u", category := "c" }]
        7
        { dedup := ["dup"], store := [], states := [] }
        { id := "s1", name := "One", type := .rss, url := "u", category := "c" }
        false
        { outcome := { success := true, results :=
            [{ id := "dup", source_id := "s1", title := "T", content := "x"
               url := "u1", published_at := 1000000, fetched_at := 1000000 }] }
          now := 1000000, nowIso := "T", duration := 0 }).2
      = (Coordinator.collect_source
          [{ id := "s1", name := "One", type := .rss, url := "u", category := "c" }]
          7
          { dedup := ["dup"], store := [], states := [] }
          { id := "s1", name := "One", type := .rss, url := "u", category := "c" }
          false
          { outcome := { success := true, results := ([] : List FetchResult) }
            now := 1000000, nowIso := "T", duration := 0 }).2
    ∧ (Coordinator.collect_source
        [{ id := "s1", name := "One", type := .rss, url := "u", category := "c" }]
        7
        { dedup := ["dup"], store := [], states := [] }
        { id := "s1", name := "One", type := .rss, url := "u", category := "c" }
        false
        { outcome := { success := true, results :=
            [{ id := "dup", source_id := "s1", title := "T", content := "x"
               url := "u1", published_at := 1000000, fetched_at := 1000000 }] }
          now := 1000000, nowIso := "T", duration := 0 }).1
      = statsAdd
          (Coordinator.collect_source
            [{ id := "s1", name := "One", type := .rss, url := "u", category := "c" }]
            7
            { dedup := ["dup"], store := [], states := [] }
            { id := "s1", name := "One", type := .rss, url := "u", category := "c" }
            false
            { outcome := { success := true, results := ([] : List FetchResult) }
              now := 1000000, nowIso := "T", duration := 0 }).1
          { items_fetched := 1, items_skipped_duplicate := 1 } :=
  C2_duplicate_skipped
    [{ id := "s1", name := "One", type := .rss, url := "u", category := "c" }]
    7
    { dedup := ["dup"], store := [], states := [] }
    { id := "s1", name := "One", type := .rss, url := "u", category := "c" }
    { outcome := { success := true, results :=
        [{ id := "dup", source_id := "s1", title := "T", content := "x"
           url := "u1", published_at := 1000000, fetched_at := 1000000 }] }
      now := 1000000, nowIso := "T", duration := 0 }
    [] [] _ rfl rfl (by decide) (by decide)

/-- Claim C4: a successfully fetched item published strictly before
`now - max_age_days` contributes nothing to the run except the fetched
counter — the resulting stores, state and store-call trace are those of the
same run without the item; and the comparison is strict: an item published
exactly at the cutoff is not dropped (with `force` it reaches
`store_content`). The cutoff is computed once from the clock reading taken
at the start of the per-source run. -/
theorem C4_age_filter_strict (registry : List Source) (maxAgeDays : Int)
    (st : CoordState) (source : Source) (force : Bool) (env : CollectEnv)
    (pre post : List FetchResult) (r : FetchResult)
    (hsucc : env.outcome.success = true)
    (hres : env.outcome.results = pre ++ [r] ++ post)
    (hold : r.published_at < env.now - maxAgeDays * 86400) :
    ((Coordinator.collect_source registry maxAgeDays st source force env).2
      = (Coordinator.collect_source registry maxAgeDays st source force
          { env with outcome := { env.outcome with results := pre ++ post } }).2
    ∧ (Coordinator.collect_source registry maxAgeDays st source force env).1
      = statsAdd
          (Coordinator.collect_source registry maxAgeDays st source force
            { env with outcome := { env.outcome with results := pre ++ post } }).1
          { items_fetched := 1 })
    ∧ ∀ (st₂ : CoordState) (source₂ : Source) (r₂ : FetchResult) (env₂ : CollectEnv),
        env₂.outcome.success = true →
        env₂.outcome.results = [r₂] →
        r₂.published_at = env₂.now - maxAgeDays * 86400 →
        (Coordinator.collect_source registry maxAgeDays st₂ source₂ true env₂).2.2 = [r₂] := by
  constructor
  · have hsucc' : ({ env with outcome := { env.outcome with results := pre ++ post } } : CollectEnv).outcome.success = true := hsucc
    rw [collect_source_success registry maxAgeDays st source force env hsucc,
      collect_source_success registry maxAgeDays st source force _ hsucc']
    have hstep := collectStep_aged registry source force
      (env.now - maxAgeDays * 86400)
      (pre.foldl
        (Coordinator.collectStep registry source force (env.now - maxAgeDays * 86400))
        { stats := { sources_processed := 1 }, dedup := st.dedup
          store := st.store, items_stored := 0, storedLog := [] })
      r hold
    have hrem := collect_loop_removal registry source force
      (env.now - maxAgeDays * 86400) pre post
      { stats := { sources_processed := 1 }, dedup := st.dedup
        store := st.store, items_stored := 0, storedLog := [] }
      r { items_fetched := 1 } hstep
    rw [hres, hrem]
    exact ⟨rfl, rfl⟩
  · intro st₂ source₂ r₂ env₂ hsucc₂ hres₂ hkeep
    rw [collect_source_success registry maxAgeDays st₂ source₂ true env₂ hsucc₂,
      hres₂]
    simp [Coordinator.collectStep, hkeep]

/-- Witness for C4 at a concrete input: an item six hundred and five
thousand seconds old (cutoff at 395200) is dropped from everything except
the fetched counter, and an item published exactly at the cutoff is stored
under `force`. -/
theorem C4_age_filter_strict_witness :
    ((Coordinator.collect_source
        [{ id := "s1", name := "One", type := .rss, url := "u", category := "c" }]
        7
        { dedup := [], store := [], states := [] }
        { id := "s1", name := "One", type := .rss, url := "u", category := "c" }
        false
        { outcome := { success := true, results :=
            [{ id := "old", source_id := "s1", title := "T", content := "x"
               url := "u1", published_at := 0, fetched_at := 1000000 }] }
          now := 1000000, nowIso := "T", duration := 0 }).2
      = (Coordinator.collect_source
          [{ id := "s1", name := "One", type := .rss, url := "u", category := "c" }]
          7
          { dedup := [], store := [], states := [] }
          { id := "s1", name := "One", type := .rss, url := "u", category := "c" }
          false
          { outcome := { success := true, results := ([] : List FetchResult) }
            now := 1000000, nowIso := "T", duration := 0 }).2
    ∧ (Coordinator.collect_source
        [{ id := "s1", name := "One", type := .rss, url := "u", category := "c" }]
        7
        { dedup := [], store := [], states := [] }
        { id := "s1", name := "One", type := .rss, url := "u", category := "c" }
        false
        { outcome := { success := true, results :=
            [{ id := "old", source_id := "s1", title := "T", content := "x"
               url := "u1", published_at := 0, fetched_at := 1000000 }] }
          now := 1000000, nowIso := "T", duration := 0 }).1
      = statsAdd
          (Coordinator.collect_source
            [{ id := "s1", name := "One", type := .rss, url := "u", category := "c" }]
            7
            { dedup := [], store := [], states := [] }
            { id := "s1", name := "One", type := .rss, url := "u", category := "c" }
            false
            { outcome := { success := true, results := ([] : List FetchResult) }
              now := 1000000, nowIso := "T", duration := 0 }).1
          { items_fetched := 1 })
    ∧ ∀ (st₂ : CoordState) (source₂ : Source) (r₂ : FetchResult) (env₂ : CollectEnv),
        env₂.outcome.success = true →
        env₂.outcome.results = [r₂] →
        r₂.published_at = env₂.now - 7 * 86400 →
        (Coordinator.collect_source
          [{ id := "s1", name := "One", type := .rss, url := "u", category := "c" }]
          7 st₂ source₂ true env₂).2.2 = [r₂] :=
  C4_age_filter_strict
    [{ id := "s1", name := "One", type := .rss, url := "u", category := "c" }]
    7
    { dedup := [], store := [], states := [] }
    { id := "s1", name := "One", type := .rss, url := "u", category := "c" }
    false
    { outcome := { success := true, results :=
        [{ id := "old", source_id := "s1", title := "T", content := "x"
           url := "u1", published_at := 0, fetched_at := 1000000 }] }
      now := 1000000, nowIso := "T", duration := 0 }
    [] [] _ rfl rfl (by decide)

theorem collect_loop_force (registry : List Source) (source : Source)
    (cutoff : DateTime) (items : List FetchResult) (acc : LoopAcc) :
    ((items.foldl (Coordinator.collectStep registry source true cutoff) acc).storedLog
        = acc.storedLog ++ items.filter fun r => decide (cutoff ≤ r.published_at))
    ∧ ((items.foldl (Coordinator.collectStep registry source true cutoff) acc).stats.items_stored
        = acc.stats.items_stored
          + (items.filter fun r => decide (cutoff ≤ r.published_at)).length)
    ∧ ((items.foldl (Coordinator.collectStep registry source true cutoff) acc).stats.items_skipped_duplicate
        = acc.stats.items_skipped_duplicate) := by
  induction items generalizing acc with
  | nil => simp
  | cons r items ih =>
    rw [List.foldl_cons]
    by_cases h : r.published_at < cutoff
    · have hf : decide (cutoff ≤ r.published_at) = false := by
        simp [not_le.mpr h]
      rw [collectStep_aged registry source true cutoff acc r h]
      obtain ⟨h1, h2, h3⟩ := ih { acc with stats := statsAdd acc.stats { items_fetched := 1 } }
      refine ⟨?_, ?_, ?_⟩
      · rw [h1]; simp [hf]
      · rw [h2]; simp [hf, statsAdd]
      · rw [h3]; simp [statsAdd]
    · have hp : decide (cutoff ≤ r.published_at) = true := by
        simp [not_lt.mp h]
      have hstep : Coordinator.collectStep registry source true cutoff acc r
          = { stats := ({ acc.stats with items_fetched := acc.stats.items_fetched + 1, items_stored := acc.stats.items_stored + 1 })
              dedup := Deduplicator.add acc.dedup r.id
              store := (MarkdownStore.store_content acc.store r.id r.source_id
                (match getSourceById registry r.source_id with
                 | some s => s.name
                 | none => r.source_id) r.title r.url r.content r.published_at
                r.fetched_at source.category r.author r.metadata).2
              items_stored := acc.items_stored + 1
              storedLog := acc.storedLog ++ [r] } := by
        unfold Coordinator.collectStep
        simp [h]
      rw [hstep]
      obtain ⟨h1, h2, h3⟩ := ih _
      refine ⟨?_, ?_, ?_⟩
      · rw [h1]; simp [hp]
      · rw [h2]; simp [hp]; omega
      · rw [h3]

/-- Claim C9: with `force=true`, the duplicate check is bypassed — every
fetched item that passes the age filter is passed to `store_content` (in
order, whether or not its id is already indexed), `items_stored` counts
exactly those items, and `items_skipped_duplicate` stays 0. -/
theorem C9_force_bypasses_dedup (registry : List Source) (maxAgeDays : Int)
    (st : CoordState) (source : Source) (env : CollectEnv)
    (hsucc : env.outcome.success = true) :
    (Coordinator.collect_source registry maxAgeDays st source true env).1.items_skipped_duplicate = 0
    ∧ (Coordinator.collect_source registry maxAgeDays st source true env).2.2
      = env.outcome.results.filter (fun r => decide (env.now - maxAgeDays * 86400 ≤ r.published_at))
    ∧ (Coordinator.collect_source registry maxAgeDays st source true env).1.items_stored
      = (env.outcome.results.filter fun r => decide (env.now - maxAgeDays * 86400 ≤ r.published_at)).length := by
  rw [collect_source_success registry maxAgeDays st source true env hsucc]
  obtain ⟨h1, h2, h3⟩ := collect_loop_force registry source
    (env.now - maxAgeDays * 86400) env.outcome.results
    { stats := { sources_processed := 1 }, dedup := st.dedup
      store := st.store, items_stored := 0, storedLog := [] }
  exact ⟨by rw [h3], by rw [h1]; simp, by rw [h2]; simp⟩

/-- Witness for C9 at a concrete input: with `force`, an already-indexed
in-window item is stored and counted, an old one is dropped, and nothing is
counted as a skipped duplicate. -/
theorem C9_force_bypasses_dedup_witness :
    (Coordinator.collect_source
        [{ id := "s1", name := "One", type := .rss, url := "u", category := "c" }]
        7
        { dedup := ["dup"], store := [], states := [] }
        { id := "s1", name := "One", type := .rss, url := "u", category := "c" }
        true
        { outcome := { success := true, results :=
            [{ id := "dup", source_id := "s1", title := "T", content := "x"
               url := "u1", published_at := 1000000, fetched_at := 1000000 },
             { id := "old", source_id := "s1", title := "T2", content := "y"
               url := "u2", published_at := 0, fetched_at := 1000000 }] }
          now := 1000000, nowIso := "T", duration := 0 }).1.items_skipped_duplicate = 0
    ∧ (Coordinator.collect_source
        [{ id := "s1", name := "One", type := .rss, url := "u", category := "c" }]
        7
        { dedup := ["dup"], store := [], states := [] }
        { id := "s1", name := "One", type := .rss, url := "u", category := "c" }
        true
        { outcome := { success := true, results :=
            [{ id := "dup", source_id := "s1", title := "T", content := "x"
               url := "u1", published_at := 1000000, fetched_at := 1000000 },
             { id := "old", source_id := "s1", title := "T2", content := "y"
               url := "u2", published_at := 0, fetched_at := 1000000 }] }
          now := 1000000, nowIso := "T", duration := 0 }).2.2
      = ([{ id := "dup", source_id := "s1", title := "T", content := "x"
            url := "u1", published_at := 1000000, fetched_at := 1000000 },
          { id := "old", source_id := "s1", title := "T2", content := "y"
            url := "u2", published_at := 0, fetched_at := 1000000 }] : List FetchResult).filter
          (fun r => decide ((1000000 : Int) - 7 * 86400 ≤ r.published_at))
    ∧ (Coordinator.collect_source
        [{ id := "s1", name := "One", type := .rss, url := "u", category := "c" }]
        7
        { dedup := ["dup"], store := [], states := [] }
        { id := "s1", name := "One", type := .rss, url := "u", category := "c" }
        true
        { outcome := { success := true, results :=
            [{ id := "dup", source_id := "s1", title := "T", content := "x"
               url := "u1", published_at := 1000000, fetched_at := 1000000 },
             { id := "old", source_id := "s1", title := "T2", content := "y"
               url := "u2", published_at := 0, fetched_at := 1000000 }] }
          now := 1000000, nowIso := "T", duration := 0 }).1.items_stored
      = (([{ id := "dup", source_id := "s1", title := "T", content := "x"
             url := "u1", published_at := 1000000, fetched_at := 1000000 },
           { id := "old", source_id := "s1", title := "T2", content := "y"
             url := "u2", published_at := 0, fetched_at := 1000000 }] : List FetchResult).filter
          fun r => decide ((1000000 : Int) - 7 * 86400 ≤ r.published_at)).length :=
  C9_force_bypasses_dedup
    [{ id := "s1", name := "One", type := .rss, url := "u", category := "c" }]
    7
    { dedup := ["dup"], store := [], states := [] }
    { id := "s1", name := "One", type := .rss, url := "u", category := "c" }
    { outcome := { success := true, results :=
        [{ id := "dup", source_id := "s1", title := "T", content := "x"
           url := "u1", published_at := 1000000, fetched_at := 1000000 },
         { id := "old", source_id := "s1", title := "T2", content := "y"
           url := "u2", published_at := 0, fetched_at := 1000000 }] }
      now := 1000000, nowIso := "T", duration := 0 }
    rfl

/-- Claim C7: the feed fetcher's embedding is a total function — every
environment, including one where `feedparser.parse` or the entry loop
raises, yields a `FetchOutcome`. A failed outcome always carries an error
message and an error classification (the rendered exception and its type
name); a successful outcome's results are exactly the parseable entries, in
order, with individually unparsable entries silently dropped by the
`filterMap`. -/
theorem C7_fetch_never_raises (source : Source) (feed : FeedParseResult)
    (fetched_at : DateTime) :
    ((RSSFetcher.fetch source feed fetched_at).success = false →
      (RSSFetcher.fetch source feed fetched_at).error_message.isSome
      ∧ (RSSFetcher.fetch source feed fetched_at).error_type.isSome)
    ∧ ((RSSFetcher.fetch source feed fetched_at).success = true →
      ∃ bozo bozoMsg bozoTy entries,
        feed = FeedParseResult.parsed bozo bozoMsg bozoTy entries
        ∧ (RSSFetcher.fetch source feed fetched_at).results
          = entries.filterMap fun e => RSSFetcher.parse_entry e source fetched_at) := by
  cases feed with
  | raised msg ty => simp [RSSFetcher.fetch]
  | parsed bozo bozoMsg bozoTy entries =>
    by_cases h : (bozo && entries.isEmpty) = true
    · simp [RSSFetcher.fetch, h]
    · refine ⟨by simp [RSSFetcher.fetch, h],
        fun _ => ⟨bozo, bozoMsg, bozoTy, entries, rfl, ?_⟩⟩
      simp [RSSFetcher.fetch, h]

/-- Witness for C7 at concrete inputs: a raising parse yields a failure
outcome carrying message and type, and a successful parse yields the
filterMap of its entries. -/
theorem C7_fetch_never_raises_witness :
    ((RSSFetcher.fetch
        { id := "s", name := "S", type := .rss, url := "u", category := "c" }
        (FeedParseResult.raised "boom" "URLError") 0).error_message.isSome
      ∧ (RSSFetcher.fetch
        { id := "s", name := "S", type := .rss, url := "u", category := "c" }
        (FeedParseResult.raised "boom" "URLError") 0).error_type.isSome)
    ∧ ∃ bozo bozoMsg bozoTy entries,
        (FeedParseResult.parsed false "" "" [{ entryId := some "e1" }])
          = FeedParseResult.parsed bozo bozoMsg bozoTy entries
        ∧ (RSSFetcher.fetch
            { id := "s", name := "S", type := .rss, url := "u", category := "c" }
            (FeedParseResult.parsed false "" "" [{ entryId := some "e1" }]) 0).results
          = entries.filterMap fun e => RSSFetcher.parse_entry e
              { id := "s", name := "S", type := .rss, url := "u", category := "c" } 0 :=
  ⟨(C7_fetch_never_raises _ (FeedParseResult.raised "boom" "URLError") 0).1 rfl,
   (C7_fetch_never_raises _ (FeedParseResult.parsed false "" "" [{ entryId := some "e1" }]) 0).2 rfl⟩

/- ## Claim C1: store/read round trip -/

/-- Claim C1 fails as stated: an empty-string author is falsy, so
`store_content` omits the `author:` line (`if author:`), and the record read
back carries `author = None` instead of the empty string that was written.
(The read-back `ContentFile` also has no metadata field at all, so stored
metadata is not read back either.) -/
theorem C1_roundtrip_counterexample :
    ((MarkdownStore.get_content_since
        (MarkdownStore.store_content [] "id1" "src" "Src" "Title" "u" "body"
          100 200 "cat" (some "") []).2 0).map (·.author))
      = [none]
    ∧ (some "" : Option String) ≠ none :=
  ⟨rfl, by decide⟩

theorem parse_content_file_clean (p : String) (f : MDFile)
    (h : scanFront f.front = none) :
    MarkdownStore.parse_content_file p f
      = MarkdownStore.parseFront f.front (pyStrip f.body) p := by
  unfold MarkdownStore.parse_content_file
  rw [h]

set_option maxHeartbeats 1600000 in
/-- Claim C1, amended: a record written by `store_content` whose author is
absent or non-empty, whose body carries no surrounding whitespace, and none
of whose emitted front-matter lines contains `---` (so the parser's
`find("---", 3)` scan lands on the closing delimiter rather than inside a
header value) is read back by `get_content_since 0` (for any non-negative
fetch timestamp) with identifier, source fields, title, url, both
timestamps, category, author and body equal to what was stored; metadata,
while written to the file, is not part of the read-back record. -/
theorem C1_store_roundtrip (content_id source_id source_name title url
    content : String) (published_at fetched_at : DateTime) (category : String)
    (author : Option String) (metadata : Metadata)
    (hauthor : author ≠ some "")
    (hcontent : pyStrip content = content)
    (hfet : 0 ≤ fetched_at)
    (hscan : scanFront (MarkdownStore.contentFront content_id source_id
        source_name title url published_at fetched_at category author
        metadata) = none) :
    MarkdownStore.get_content_since
      (MarkdownStore.store_content [] content_id source_id source_name title
        url content published_at fetched_at category author metadata).2 0
    = [{ id := content_id, source_id := source_id, source_name := source_name
         title := title, url := url, published_at := published_at
         fetched_at := fetched_at, category := category, author := author
         content := content
         file_path := source_id ++ "/" ++ (MarkdownStore.dateStr published_at
           ++ "-" ++ MarkdownStore.slugify title ++ ".md") }] := by
  have hp : MarkdownStore.parse_content_file
      (source_id ++ "/" ++ (MarkdownStore.dateStr published_at
        ++ "-" ++ MarkdownStore.slugify title ++ ".md"))
      { front := MarkdownStore.contentFront content_id source_id source_name
          title url published_at fetched_at category author metadata
        body := content }
      = some { id := content_id, source_id := source_id
               source_name := source_name, title := title, url := url
               published_at := published_at, fetched_at := fetched_at
               category := category, author := author, content := content
               file_path := source_id ++ "/" ++ (MarkdownStore.dateStr published_at
                 ++ "-" ++ MarkdownStore.slugify title ++ ".md") } := by
    rw [parse_content_file_clean _ _ hscan]
    rcases author with _ | a
    · by_cases hm : metadata = []
      · subst hm
        simp [MarkdownStore.contentFront, MarkdownStore.parseFront, mapGet,
          FMVal.asStr, FMVal.asTime?, hcontent]
      · simp [MarkdownStore.contentFront, MarkdownStore.parseFront, mapGet,
          FMVal.asStr, FMVal.asTime?, hcontent, hm]
    · have ha : ¬ a = "" := fun h => hauthor (by rw [h])
      by_cases hm : metadata = []
      · subst hm
        simp [MarkdownStore.contentFront, MarkdownStore.parseFront, mapGet,
          FMVal.asStr, FMVal.asTime?, hcontent, ha]
      · simp [MarkdownStore.contentFront, MarkdownStore.parseFront, mapGet,
          FMVal.asStr, FMVal.asTime?, hcontent, ha, hm]
  simp [MarkdownStore.store_content, MarkdownStore.get_content_since, mapSet,
    hp, hfet, MarkdownStore.sortByPublishedDesc, MarkdownStore.insertDesc]

/-- Witness for C1 at a concrete input: a record with a non-empty author,
metadata, and header values free of `---` round-trips with all read-back
fields equal to what was stored. -/
theorem C1_store_roundtrip_witness :
    MarkdownStore.get_content_since
      (MarkdownStore.store_content [] "a" "s" "SName" "My Title" "http://u"
        "body text" 100 200 "cat" (some "auth") [("tags", ["x"])]).2 0
    = [{ id := "a", source_id := "s", source_name := "SName"
         title := "My Title", url := "http://u", published_at := 100
         fetched_at := 200, category := "cat", author := some "auth"
         content := "body text"
         file_path := "s" ++ "/" ++ (MarkdownStore.dateStr 100
           ++ "-" ++ MarkdownStore.slugify "My Title" ++ ".md") }] :=
  C1_store_roundtrip "a" "s" "SName" "My Title" "http://u" "body text"
    100 200 "cat" (some "auth") [("tags", ["x"])]
    (by decide) (by decide) (by decide) (by decide)

end DanielDaily
